import Mathlib

/-!
Verification development for the certificate-verification worker.

The definitions below are shallow embeddings of the TypeScript source:
  * `analyzeVerificationConfidence` embeds the confidence scorer of
    `src/verification.ts` (JS numbers are modelled as rationals).
  * `extractVerificationJson` embeds the reply-parsing portion of the
    Mistral client `verifyCertificate`, including the three regex
    attempts and the JSON.parse fallback.
  * `runVerification` embeds `processCertificateVerification` as a
    deterministic function of an explicit `World` of I/O outcomes,
    returning the outcome together with a trace of observable events.
  * `loggerLog` embeds `Logger.log` of `src/logger.ts`.
-/

namespace CertVerify

/-! ## Data model (src/types.ts) -/

/-- `DocumentA` of the Mistral response: extracted certificate fields plus a
confidence score.  Every field is untrusted, hence optional; JS numbers are
modelled as rationals. -/
structure DocumentA where
  student_name : Option String
  institution_name : Option String
  degree_or_program : Option String
  date_of_issue : Option String
  certificate_title : Option String
  document_a_confidence_score : Option ℚ
deriving Repr, DecidableEq

/-- `DocumentB` of the Mistral response. -/
structure DocumentB where
  document_b_confidence_score : Option ℚ
deriving Repr, DecidableEq

/-- `MistralVerificationResponse` of src/types.ts. -/
structure MistralVerificationResponse where
  document_a : DocumentA
  document_b : DocumentB
  verification_url_valid : Bool
  total_verification : String
deriving Repr, DecidableEq

/-- JS `x || 0` on an optional number: absent (undefined/null) and 0 both
give 0, any other number gives itself. -/
def jsNumOrZero (x : Option ℚ) : ℚ := x.getD 0

/-- Result shape of `analyzeVerificationConfidence`. -/
structure ConfidenceAnalysis where
  overallConfidence : ℚ
  isPassing : Bool
  reasons : List String
deriving Repr, DecidableEq

/-! ## Confidence scorer (src/verification.ts, `analyzeVerificationConfidence`) -/

/-- Embedding of `analyzeVerificationConfidence`: weighted overall confidence,
threshold decision and ordered reasons list, translated line by line from
src/verification.ts. -/
def analyzeVerificationConfidence (result : MistralVerificationResponse) :
    ConfidenceAnalysis :=
  let documentAScore : ℚ := jsNumOrZero result.document_a.document_a_confidence_score
  let documentBScore : ℚ := jsNumOrZero result.document_b.document_b_confidence_score
  let isUrlValid : Bool := result.verification_url_valid
  let overallConfidence : ℚ :=
    documentAScore * (5/10) + documentBScore * (3/10) + (if isUrlValid then 2/10 else 0)
  let isPassing : Bool :=
    decide (overallConfidence ≥ 7/10) && isUrlValid && decide (documentAScore ≥ 65/100)
  let reasons : List String :=
    (if documentAScore < 65/100 then ["Certificate document has low confidence score"] else []) ++
    (if documentBScore < 6/10 then ["Verification document has low confidence score"] else []) ++
    (if isUrlValid = false then ["Verification URL appears invalid"] else [])
  let reasons : List String :=
    if reasons.length = 0 ∧ isPassing then
      reasons ++ ["All verification checks passed successfully"]
    else reasons
  { overallConfidence := overallConfidence, isPassing := isPassing, reasons := reasons }

/-- The spec's formula, written from its words: `overallConfidence =
0.5*document_a + 0.3*document_b + 0.2*(1 if url valid else 0)`, missing
scores treated as 0. -/
def specOverallConfidence (result : MistralVerificationResponse) : ℚ :=
  (5/10) * jsNumOrZero result.document_a.document_a_confidence_score +
  (3/10) * jsNumOrZero result.document_b.document_b_confidence_score +
  (2/10) * (if result.verification_url_valid then 1 else 0)

/-- The spec's decision rule, written from its words: `isPassing =
overallConfidence >= 0.70 AND verification_url_valid AND
document_a_confidence_score >= 0.65`. -/
def specIsPassing (result : MistralVerificationResponse) : Prop :=
  specOverallConfidence result ≥ 7/10 ∧
  result.verification_url_valid = true ∧
  jsNumOrZero result.document_a.document_a_confidence_score ≥ 65/100

/-- A concrete well-formed analysis result used to instantiate theorems with
hypotheses. -/
def sampleResponse : MistralVerificationResponse :=
  { document_a :=
      { student_name := some "John Doe"
        institution_name := some "University of Example"
        degree_or_program := some "Computer Science"
        date_of_issue := some "2023-01-15"
        certificate_title := some "Bachelor Degree"
        document_a_confidence_score := some (95/100) }
    document_b := { document_b_confidence_score := some (9/10) }
    verification_url_valid := true
    total_verification := "pass" }


/-! ## A model of JS `JSON.parse` (used by the Mistral client) -/

/-- Parsed JSON values.  Number literals are kept as their lexeme. -/
inductive JVal where
  | null
  | bool (b : Bool)
  | num (lit : String)
  | str (s : String)
  | arr (elems : List JVal)
  | obj (fields : List (String × JVal))
deriving Repr

/-- JSON insignificant whitespace. -/
def isJsonWs (c : Char) : Bool := c = ' ' || c = '\t' || c = '\n' || c = '\r'

/-- Drop leading JSON whitespace. -/
def skipWs (cs : List Char) : List Char := cs.dropWhile isJsonWs

/-- Value of a hexadecimal digit. -/
def hexVal (c : Char) : Option Nat :=
  if '0' ≤ c ∧ c ≤ '9' then some (c.toNat - '0'.toNat)
  else if 'a' ≤ c ∧ c ≤ 'f' then some (c.toNat - 'a'.toNat + 10)
  else if 'A' ≤ c ∧ c ≤ 'F' then some (c.toNat - 'A'.toNat + 10)
  else none

/-- Parse the remainder of a JSON string literal (after the opening quote),
returning its characters and the rest of the input. -/
def parseStringRest : Nat → List Char → Option (List Char × List Char)
  | 0, _ => none
  | _, [] => none
  | fuel+1, c :: rest =>
    if c = '"' then some ([], rest)
    else if c = '\\' then
      match rest with
      | [] => none
      | e :: rest2 =>
        if e = 'u' then
          match rest2 with
          | h1 :: h2 :: h3 :: h4 :: rest3 =>
            match hexVal h1, hexVal h2, hexVal h3, hexVal h4 with
            | some a, some b, some c2, some d =>
              match parseStringRest fuel rest3 with
              | some (s, r) => some (Char.ofNat (((a*16+b)*16+c2)*16+d) :: s, r)
              | none => none
            | _, _, _, _ => none
          | _ => none
        else
          match
            (if e = '"' then some '"'
             else if e = '\\' then some '\\'
             else if e = '/' then some '/'
             else if e = 'b' then some (Char.ofNat 8)
             else if e = 'f' then some (Char.ofNat 12)
             else if e = 'n' then some '\n'
             else if e = 'r' then some '\r'
             else if e = 't' then some '\t'
             else none) with
          | some ec =>
            match parseStringRest fuel rest2 with
            | some (s, r) => some (ec :: s, r)
            | none => none
          | none => none
    else if c.toNat < 32 then none
    else
      match parseStringRest fuel rest with
      | some (s, r) => some (c :: s, r)
      | none => none

/-- Split off a maximal run of decimal digits. -/
def takeDigits (cs : List Char) : List Char × List Char :=
  (cs.takeWhile Char.isDigit, cs.dropWhile Char.isDigit)

/-- Lex a JSON number (sign, integer part without leading zeros, optional
fraction, optional exponent), returning the lexeme and the rest. -/
def parseNumberLex (cs : List Char) : Option (List Char × List Char) :=
  let (sign, cs1) : List Char × List Char :=
    match cs with
    | '-' :: r => (['-'], r)
    | _ => ([], cs)
  match cs1 with
  | [] => none
  | c :: rest =>
    if ¬ c.isDigit then none
    else if c = '0' && (match rest with | d :: _ => d.isDigit | [] => false) then none
    else
      let (ip, cs2) := if c = '0' then ([c], rest) else takeDigits cs1
      let fracRes : Option (List Char × List Char) :=
        match cs2 with
        | '.' :: r =>
          let (ds, r2) := takeDigits r
          if ds.isEmpty then none else some ('.' :: ds, r2)
        | _ => some ([], cs2)
      match fracRes with
      | none => none
      | some (fp, cs3) =>
        let expRes : Option (List Char × List Char) :=
          match cs3 with
          | e :: r =>
            if e = 'e' ∨ e = 'E' then
              let (es, r2) : List Char × List Char :=
                match r with
                | s :: r3 => if s = '+' ∨ s = '-' then ([s], r3) else ([], r)
                | [] => ([], r)
              let (ds, r3) := takeDigits r2
              if ds.isEmpty then none else some (e :: (es ++ ds), r3)
            else some ([], cs3)
          | [] => some ([], cs3)
        match expRes with
        | none => none
        | some (ep, cs4) => some (sign ++ ip ++ fp ++ ep, cs4)

mutual

/-- Parse one JSON value starting at the (whitespace-skipped) input. -/
def parseJValue : Nat → List Char → Option (JVal × List Char)
  | 0, _ => none
  | fuel+1, cs =>
    match skipWs cs with
    | [] => none
    | c :: rest =>
      if c = '"' then
        match parseStringRest (rest.length + 1) rest with
        | some (s, r) => some (.str (String.mk s), r)
        | none => none
      else if c = '\x7b' then
        match skipWs rest with
        | '\x7d' :: r => some (.obj [], r)
        | _ => parseJObjectItems fuel rest []
      else if c = '[' then
        match skipWs rest with
        | ']' :: r => some (.arr [], r)
        | _ => parseJArrayItems fuel rest []
      else if c = 't' then
        if rest.take 3 = ['r', 'u', 'e'] then some (.bool true, rest.drop 3) else none
      else if c = 'f' then
        if rest.take 4 = ['a', 'l', 's', 'e'] then some (.bool false, rest.drop 4) else none
      else if c = 'n' then
        if rest.take 3 = ['u', 'l', 'l'] then some (.null, rest.drop 3) else none
      else
        match parseNumberLex (c :: rest) with
        | some (lex, r) => some (.num (String.mk lex), r)
        | none => none

/-- Parse the items of a non-empty JSON array, after the opening bracket. -/
def parseJArrayItems : Nat → List Char → List JVal → Option (JVal × List Char)
  | 0, _, _ => none
  | fuel+1, cs, acc =>
    match parseJValue fuel cs with
    | none => none
    | some (v, r) =>
      match skipWs r with
      | ',' :: r2 => parseJArrayItems fuel r2 (acc ++ [v])
      | ']' :: r2 => some (.arr (acc ++ [v]), r2)
      | _ => none

/-- Parse the members of a non-empty JSON object, after the opening brace. -/
def parseJObjectItems : Nat → List Char → List (String × JVal) →
    Option (JVal × List Char)
  | 0, _, _ => none
  | fuel+1, cs, acc =>
    match skipWs cs with
    | '"' :: rest =>
      match parseStringRest (rest.length + 1) rest with
      | none => none
      | some (k, r) =>
        match skipWs r with
        | ':' :: r2 =>
          match parseJValue fuel r2 with
          | none => none
          | some (v, r3) =>
            match skipWs r3 with
            | ',' :: r4 => parseJObjectItems fuel r4 (acc ++ [(String.mk k, v)])
            | '\x7d' :: r4 => some (.obj (acc ++ [(String.mk k, v)]), r4)
            | _ => none
        | _ => none
    | _ => none

end

/-- Model of `JSON.parse`: one JSON value surrounded only by whitespace. -/
def jsonParse (s : String) : Option JVal :=
  match parseJValue (2 * s.length + 2) s.toList with
  | some (v, rest) => if (skipWs rest).isEmpty then some v else none
  | none => none


/-! ## Mistral reply extraction (src/mistral.ts, `verifyCertificate`) -/

/-- Index of the first occurrence of `pat` in the input, if any. -/
def firstMatchPos (pat : List Char) : List Char → Option Nat
  | [] => if pat.isEmpty then some 0 else none
  | c :: rest =>
    if pat.isPrefixOf (c :: rest) then some 0
    else (firstMatchPos pat rest).map Nat.succ

/-- Whitespace of the JS regex class `\s` (ASCII part). -/
def isRegexWs (c : Char) : Bool :=
  c = ' ' || c = '\t' || c = '\n' || c = '\r' || c = '\x0b' || c = '\x0c'

/-- Trim `\s` characters from both ends. -/
def trimRegexWs (cs : List Char) : List Char :=
  ((cs.dropWhile isRegexWs).reverse.dropWhile isRegexWs).reverse

/-- Result of a JS `String.match`: we only track capture group 1, which is
absent for a regex with no capture group. -/
structure RegexMatch where
  group1 : Option (List Char)
deriving Repr

/-- Model of matching a fenced-block regex of the form
`` open \s*([\s\S]*?)\s* ``` ``: find the first opening pattern, then the
first closing triple backtick after it; the lazy group with the surrounding
greedy `\s*` captures the text in between, trimmed. -/
def matchFence (openPat : List Char) (cs : List Char) : Option RegexMatch :=
  match firstMatchPos openPat cs with
  | none => none
  | some i =>
    let tailAfter := cs.drop (i + openPat.length)
    match firstMatchPos ("```".toList) tailAfter with
    | none => none
    | some j => some { group1 := some (trimRegexWs (tailAfter.take j)) }

/-- The first regex attempt: `` /```json\s*([\s\S]*?)\s*```/ ``. -/
def matchJsonFence (cs : List Char) : Option RegexMatch :=
  matchFence ("```json".toList) cs

/-- The second regex attempt: `` /```\s*([\s\S]*?)\s*```/ ``. -/
def matchGenericFence (cs : List Char) : Option RegexMatch :=
  matchFence ("```".toList) cs

/-- The third regex attempt: `/{[\s\S]*}/` (greedy, no capture group): it
matches iff some `\x7b` occurs strictly before the last `\x7d`; its group 1
is absent. -/
def matchBraceSpan (cs : List Char) : Option RegexMatch :=
  match firstMatchPos ['\x7b'] cs, firstMatchPos ['\x7d'] cs.reverse with
  | some i, some jr => if i + jr + 1 < cs.length then some { group1 := none } else none
  | _, _ => none

/-- Embedding of the reply-parsing portion of `verifyCertificate`: the three
regex attempts chained with `||`, the JS truthiness test
`jsonMatch && jsonMatch[1]`, and the fallback `JSON.parse` of the whole
content.  `.error` models the thrown parse failure, which the client
rethrows as its analysis error. -/
def extractVerificationJson (content : String) : Except String JVal :=
  let cs := content.toList
  let jsonMatch : Option RegexMatch :=
    (matchJsonFence cs).orElse fun _ =>
      (matchGenericFence cs).orElse fun _ => matchBraceSpan cs
  let viaGroup : Option (List Char) :=
    match jsonMatch with
    | some m =>
      match m.group1 with
      | some g => if g.isEmpty then none else some g
      | none => none
    | none => none
  match viaGroup with
  | some g =>
    match jsonParse (String.mk g) with
    | some v => .ok v
    | none => .error "Failed to parse Mistral AI response"
  | none =>
    match jsonParse content with
    | some v => .ok v
    | none => .error "Failed to parse Mistral AI response"

/-- The spec's fenced-reply example: a JSON object inside a ```json fence. -/
def fencedReply : String :=
  "```json\n\x7b\"verification_url_valid\": true, \"total_verification\": \"pass\"\x7d\n```"

/-- A reply whose only JSON is a bare object embedded in surrounding prose. -/
def bareObjectProseReply : String :=
  "Here is the verification result: \x7b\"total_verification\": \"pass\"\x7d Thank you."

/-- The bare JSON object embedded in `bareObjectProseReply`. -/
def bareObjectOnly : String :=
  "\x7b\"total_verification\": \"pass\"\x7d"

/-- A reply that is plain prose with no JSON anywhere. -/
def proseOnlyReply : String := "This is not valid JSON"


/-! ## Orchestrator (src/verification.ts, `processCertificateVerification`) -/

/-- `User` row (src/types.ts). -/
structure User where
  id : String
  email : String
  full_name : String
  wallet_address : String
deriving Repr, DecidableEq

/-- `Certificate` row (src/types.ts).  The two document references are
optional/untrusted at runtime, hence `Option String`. -/
structure Certificate where
  id : String
  user_id : String
  title : String
  institution_name : String
  program_name : String
  issue_date : String
  verification_url : String
  certificate_url : Option String
  verification_url_pdf : Option String
  arweave_url : Option String
  nft_mint_address : Option String
  verification_status : String
  verification_details : Option String
deriving Repr, DecidableEq

/-- JS truthiness of an optional string: absent and empty are falsy. -/
def truthyStr : Option String → Bool
  | none => false
  | some s => !s.isEmpty

/-- Return shape of `processCertificateVerification`. -/
structure VerificationOutcome where
  success : Bool
  status : String
  message : String
  details : Option MistralVerificationResponse
deriving Repr, DecidableEq

/-- Observable events of one verification run, in program order. -/
inductive Event where
  | audit (step : String) (status : String)
  | dbLog (step : String) (status : String) (ok : Bool)
  | analysisCall
  | statusUpdate (newStatus : String) (ok : Bool)
  | cacheGetOp
  | cachePutOp (ok : Bool)
deriving Repr, DecidableEq

/-- One run's I/O outcomes: each collaborator call either returns a value or
throws (`.error`).  Audit-logger calls are absent because `Logger.log` never
throws (proved below for C8). -/
structure World where
  getUser : Except String (Option User)
  getCertificate : Except String (Option Certificate)
  cacheGet : Except String (Option MistralVerificationResponse)
  createLog : String → Except String Unit
  analyze : Except String MistralVerificationResponse
  updateStatus : Except String Unit
  cachePut : Except String Unit

/-- Whether a call returned rather than threw. -/
def isOkB {α : Type} : Except String α → Bool
  | .ok _ => true
  | .error _ => false

/-- The catch-all block closing `processCertificateVerification`: audit-log
the error, attempt one durable error log (whose own failure only reaches the
console), and return the failure outcome. -/
def catchBlock (w : World) (errMsg : String) (tr : List Event) :
    VerificationOutcome × List Event :=
  ({ success := false
     status := "rejected"
     message := "Verification process failed: " ++ errMsg
     details := none },
   tr ++ [Event.audit "verification_error" "error",
          Event.dbLog "verification_error" "error" (isOkB (w.createLog "verification_error"))])

/-- Embedding of `processCertificateVerification`, translated step by step
from src/verification.ts: existence checks, already-verified short-circuit,
document check, cache fast path, analysis call, status mapping and update,
durable completion log, cache write-back, and the catch-all handler.  It
returns the outcome together with the trace of observable events. -/
def runVerification (w : World) : VerificationOutcome × List Event :=
  let tr := [Event.audit "verification_started" "info"]
  match w.getUser with
  | .error e => catchBlock w e tr
  | .ok none =>
    ({ success := false, status := "rejected", message := "User not found",
       details := none },
     tr ++ [Event.audit "user_not_found" "error"])
  | .ok (some _user) =>
    let tr := tr ++ [Event.audit "user_found" "info"]
    match w.getCertificate with
    | .error e => catchBlock w e tr
    | .ok none =>
      ({ success := false, status := "rejected", message := "Certificate not found",
         details := none },
       tr ++ [Event.audit "certificate_not_found" "error"])
    | .ok (some certificate) =>
      let tr := tr ++ [Event.audit "certificate_found" "info"]
      if certificate.verification_status = "verified" then
        ({ success := true, status := "verified",
           message := "Certificate is already verified", details := none },
         tr ++ [Event.audit "already_verified" "info"])
      else if !truthyStr certificate.certificate_url ||
              !truthyStr certificate.verification_url_pdf then
        let tr := tr ++ [Event.audit "missing_verification_documents" "error"]
        match w.createLog "document_check" with
        | .error e => catchBlock w e (tr ++ [Event.dbLog "document_check" "error" false])
        | .ok _ =>
          ({ success := false, status := "rejected",
             message := "Missing required verification documents", details := none },
           tr ++ [Event.dbLog "document_check" "error" true])
      else
        match w.cacheGet with
        | .error e => catchBlock w e (tr ++ [Event.cacheGetOp])
        | .ok (some cachedResult) =>
          ({ success := true, status := certificate.verification_status,
             message := "Certificate verification result from cache",
             details := some cachedResult },
           tr ++ [Event.cacheGetOp, Event.audit "cache_hit" "info"])
        | .ok none =>
          let tr := tr ++ [Event.cacheGetOp,
                           Event.audit "verification_process_started" "info"]
          match w.createLog "verification_process" with
          | .error e =>
            catchBlock w e (tr ++ [Event.dbLog "verification_process" "started" false])
          | .ok _ =>
            let tr := tr ++ [Event.dbLog "verification_process" "started" true]
            match w.analyze with
            | .error e => catchBlock w e (tr ++ [Event.analysisCall])
            | .ok verificationResult =>
              let tr := tr ++ [Event.analysisCall,
                               Event.audit "ai_verification_completed" "info"]
              let isVerified : Bool :=
                verificationResult.total_verification == "pass" &&
                verificationResult.verification_url_valid
              let newStatus : String := if isVerified then "verified" else "rejected"
              match w.updateStatus with
              | .error e => catchBlock w e (tr ++ [Event.statusUpdate newStatus false])
              | .ok _ =>
                let tr := tr ++ [Event.statusUpdate newStatus true,
                                 Event.audit "verification_status_updated" "success"]
                match w.createLog "verification_completed" with
                | .error e =>
                  catchBlock w e (tr ++ [Event.dbLog "verification_completed" newStatus false])
                | .ok _ =>
                  let tr := tr ++ [Event.dbLog "verification_completed" newStatus true]
                  match w.cachePut with
                  | .error e => catchBlock w e (tr ++ [Event.cachePutOp false])
                  | .ok _ =>
                    ({ success := true, status := newStatus,
                       message := if isVerified then "Certificate verified successfully"
                                  else "Certificate verification failed",
                       details := some verificationResult },
                     tr ++ [Event.cachePutOp true])


/-! ## Concrete runs used as witnesses and counterexamples -/

/-- A concrete user row. -/
def sampleUser : User :=
  { id := "u1", email := "u1@example.com", full_name := "User One",
    wallet_address := "w1" }

/-- A concrete pending certificate with both document references present. -/
def baseCertificate : Certificate :=
  { id := "c1", user_id := "u1", title := "BSc", 
    institution_name := "University of Example", program_name := "CS",
    issue_date := "2023-06-15", verification_url := "https://example.com/v",
    certificate_url := some "https://example.com/cert.pdf",
    verification_url_pdf := some "https://example.com/verify.pdf",
    arweave_url := none, nft_mint_address := none,
    verification_status := "pending", verification_details := none }

/-- The happy-path world: every collaborator call succeeds. -/
def okWorld : World :=
  { getUser := .ok (some sampleUser)
    getCertificate := .ok (some baseCertificate)
    cacheGet := .ok none
    createLog := fun _ => .ok ()
    analyze := .ok sampleResponse
    updateStatus := .ok ()
    cachePut := .ok () }

/-- An already-verified certificate that carries stored details from the
earlier run. -/
def verifiedCertificate : Certificate :=
  { baseCertificate with
    verification_status := "verified"
    verification_details := some "\x7b\"total_verification\":\"pass\"\x7d" }

/-- World whose certificate is already verified. -/
def wVerified : World :=
  { okWorld with getCertificate := .ok (some verifiedCertificate) }

/-- World whose certificate lacks its `certificate_url`. -/
def wMissingDoc : World :=
  { okWorld with
    getCertificate := .ok (some { baseCertificate with certificate_url := none }) }

/-- World where the certificate-status update throws a storage error. -/
def wStorageFail : World :=
  { okWorld with
    updateStatus :=
      .error "Database error: Failed to update certificate verification: boom" }

/-- World where only the durable completion-log write throws. -/
def wCompletedLogFail : World :=
  { okWorld with
    createLog := fun step =>
      if step = "verification_completed" then
        .error "Database error: Failed to create verification log: boom"
      else .ok () }

/-- World where only the cache write-back throws. -/
def wCachePutFail : World :=
  { okWorld with cachePut := .error "KV write failed" }

/-- World where the user lookup finds nobody. -/
def wUserNotFound : World :=
  { okWorld with getUser := .ok none }


/-- Recognizer for durable log rows with step `document_check`. -/
def isDocumentCheckLog : Event → Bool
  | .dbLog step _ _ => step == "document_check"
  | _ => false


/-! ## Audit logger (src/logger.ts, `Logger.log`) -/

/-- Outcomes of the KV operations a single `Logger.log` call performs. -/
structure LogWorld where
  putLogFails : Bool
  putRequestListFails : Bool
  recentGet : Except String (Option (List String))
  putRecentFails : Bool

/-- Observable effects of one `Logger.log` call, in program order. -/
inductive LogEffect where
  | kvPutLog (ok : Bool)
  | kvPutRequestList (ok : Bool)
  | kvGetRecent
  | kvPutRecent (updated : List String) (ok : Bool)
  | consoleFallback
  | consoleIndexError
deriving Repr, DecidableEq

/-- The updated recent-requests index computed by `Logger.log`: the current
request id first, its previous occurrences filtered out, capped at 1000. -/
def updateRecent (requestId : String) (recent : List String) : List String :=
  (requestId :: recent.filter (fun i => i != requestId)).take 1000

/-- Embedding of `Logger.log`: the outer try wraps the entry write and the
request-list write, falling back to a console emission on failure; the inner
try wraps the recent-requests index read-modify-write with its own console
handler, so its failure does not fail the log write.  The Bool records
whether an exception escaped to the caller; the step and status arguments
shape only the entry content, never the control flow. -/
def loggerLog (w : LogWorld) (requestId _step _status : String) :
    List LogEffect × Bool :=
  if w.putLogFails then ([.kvPutLog false, .consoleFallback], false)
  else if w.putRequestListFails then
    ([.kvPutLog true, .kvPutRequestList false, .consoleFallback], false)
  else
    let effs : List LogEffect :=
      [.kvPutLog true, .kvPutRequestList true, .kvGetRecent]
    match w.recentGet with
    | .error _ => (effs ++ [.consoleIndexError], false)
    | .ok recentOpt =>
      let recentRequests := recentOpt.getD []
      let updatedList := updateRecent requestId recentRequests
      if w.putRecentFails then
        (effs ++ [.kvPutRecent updatedList false, .consoleIndexError], false)
      else (effs ++ [.kvPutRecent updatedList true], false)

theorem jsNumOrZero_bounds (x : Option ℚ)
    (h : ∀ y, x = some y → 0 ≤ y ∧ y ≤ 1) :
    0 ≤ jsNumOrZero x ∧ jsNumOrZero x ≤ 1 := by
  cases x with
  | none => simp [jsNumOrZero]
  | some y => simpa [jsNumOrZero] using h y rfl


/-- C6: the scorer computes exactly the spec's weighted-sum formula
(0.5, 0.3, 0.2 weights, missing scores as 0) and decides passing exactly as
overall ≥ 0.70 and url valid and document-a score ≥ 0.65. -/
theorem analyzeVerificationConfidence_matches_spec
    (result : MistralVerificationResponse) :
    (analyzeVerificationConfidence result).overallConfidence =
      specOverallConfidence result ∧
    ((analyzeVerificationConfidence result).isPassing = true ↔
      specIsPassing result) := by
  constructor
  · unfold analyzeVerificationConfidence specOverallConfidence
    cases result.verification_url_valid <;> simp <;> ring
  · unfold analyzeVerificationConfidence specIsPassing specOverallConfidence
    cases h : result.verification_url_valid <;> simp [h, decide_eq_true_iff]
    intro _
    constructor <;> intro hh <;> linarith


/-- C7: for analysis results whose confidence scores lie in [0,1], the
scorer's overall confidence lies in [0,1], and the scorer is deterministic:
identical inputs give identical outputs. -/
theorem analyzeVerificationConfidence_range_and_deterministic
    (result : MistralVerificationResponse)
    (ha : ∀ x, result.document_a.document_a_confidence_score = some x → 0 ≤ x ∧ x ≤ 1)
    (hb : ∀ x, result.document_b.document_b_confidence_score = some x → 0 ≤ x ∧ x ≤ 1) :
    0 ≤ (analyzeVerificationConfidence result).overallConfidence ∧
    (analyzeVerificationConfidence result).overallConfidence ≤ 1 ∧
    analyzeVerificationConfidence result = analyzeVerificationConfidence result := by
  obtain ⟨ha0, ha1⟩ := jsNumOrZero_bounds _ ha
  obtain ⟨hb0, hb1⟩ := jsNumOrZero_bounds _ hb
  refine ⟨?_, ?_, rfl⟩ <;>
    · unfold analyzeVerificationConfidence
      cases h : result.verification_url_valid <;> simp [h] <;> linarith

/-- Witness for C7 at the concrete `sampleResponse`. -/
theorem analyzeVerificationConfidence_range_witness :
    0 ≤ (analyzeVerificationConfidence sampleResponse).overallConfidence ∧
    (analyzeVerificationConfidence sampleResponse).overallConfidence ≤ 1 ∧
    analyzeVerificationConfidence sampleResponse = analyzeVerificationConfidence sampleResponse :=
  analyzeVerificationConfidence_range_and_deterministic sampleResponse
    (fun x hx => by cases hx; constructor <;> norm_num)
    (fun x hx => by cases hx; constructor <;> norm_num)

/-- C10: for analysis results whose confidence scores lie in [0,1], the
reasons list is never empty: each failing check contributes a negative
reason, and if none fails the overall confidence is at least 0.705, so the
decision passes and the positive confirmation reason is appended. -/
theorem analyzeVerificationConfidence_reasons_nonempty
    (result : MistralVerificationResponse)
    (ha : ∀ x, result.document_a.document_a_confidence_score = some x → 0 ≤ x ∧ x ≤ 1)
    (hb : ∀ x, result.document_b.document_b_confidence_score = some x → 0 ≤ x ∧ x ≤ 1) :
    (analyzeVerificationConfidence result).reasons ≠ [] := by
  unfold analyzeVerificationConfidence
  by_cases hA : jsNumOrZero result.document_a.document_a_confidence_score < 65/100
  · simp [hA]
  · by_cases hB : jsNumOrZero result.document_b.document_b_confidence_score < 6/10
    · simp [hB]
    · cases hU : result.verification_url_valid with
      | false => simp [hU]
      | true =>
        push_neg at hA hB
        have hov : (7:ℚ)/10 ≤
            jsNumOrZero result.document_a.document_a_confidence_score * (5/10) +
            jsNumOrZero result.document_b.document_b_confidence_score * (3/10) + 2/10 := by
          linarith
        simp [hA, hB, hU, not_lt.mpr hA, not_lt.mpr hB, hov]

/-- Witness for C10 at the concrete `sampleResponse`. -/
theorem analyzeVerificationConfidence_reasons_nonempty_witness :
    (analyzeVerificationConfidence sampleResponse).reasons ≠ [] :=
  analyzeVerificationConfidence_reasons_nonempty sampleResponse
    (fun x hx => by cases hx; constructor <;> norm_num)
    (fun x hx => by cases hx; constructor <;> norm_num)


theorem matchBraceSpan_group1 (cs : List Char) (m : RegexMatch)
    (h : matchBraceSpan cs = some m) : m.group1 = none := by
  unfold matchBraceSpan at h
  rcases h1 : firstMatchPos ['\x7b'] cs with _ | i <;>
    rcases h2 : firstMatchPos ['\x7d'] cs.reverse with _ | jr <;>
    rw [h1, h2] at h <;> simp at h
  rw [← h.2]

/-- C4 counterexample: the reply whose only JSON is a bare object embedded in
prose does match the third regex `/{[\s\S]*}/`, and the embedded object by
itself is valid JSON, yet the client does not parse it successfully via that
path: it fails with the parse error, because that regex has no capture
group. -/
theorem extractVerificationJson_counterexample :
    (matchBraceSpan bareObjectProseReply.toList).isSome = true ∧
    jsonParse bareObjectOnly = some (.obj [("total_verification", .str "pass")]) ∧
    extractVerificationJson bareObjectProseReply =
      .error "Failed to parse Mistral AI response" :=
  ⟨rfl, rfl, rfl⟩

/-- C4 (amended): the reply parser attempts extraction from a ```json fence,
then from a generic fence, using capture group 1; the bare `\x7b...\x7d` regex
has no capture group, so when neither fence matches, the entire text is parsed
as JSON.  Hence the spec's fenced example parses successfully, while a reply
whose only JSON is a bare object embedded in prose fails with the parse
error, as does a reply with no JSON anywhere — never a silent default. -/
theorem extractVerificationJson_amended :
    (extractVerificationJson fencedReply =
      .ok (.obj [("verification_url_valid", .bool true),
                 ("total_verification", .str "pass")])) ∧
    (∀ content : String,
      matchJsonFence content.toList = none →
      matchGenericFence content.toList = none →
      extractVerificationJson content =
        match jsonParse content with
        | some v => .ok v
        | none => .error "Failed to parse Mistral AI response") ∧
    extractVerificationJson bareObjectProseReply =
      .error "Failed to parse Mistral AI response" ∧
    extractVerificationJson proseOnlyReply =
      .error "Failed to parse Mistral AI response" := by
  refine ⟨rfl, ?_, rfl, rfl⟩
  intro content hja hgb
  simp only [extractVerificationJson, hja, hgb]
  cases h : matchBraceSpan content.toList with
  | none => simp [Option.orElse]
  | some m =>
    have hg := matchBraceSpan_group1 _ _ h
    simp [Option.orElse, hg]

/-- Witness for the universally quantified part of the amended C4 theorem at
the concrete prose-only reply. -/
theorem extractVerificationJson_amended_witness :
    extractVerificationJson proseOnlyReply =
      match jsonParse proseOnlyReply with
      | some v => .ok v
      | none => .error "Failed to parse Mistral AI response" :=
  extractVerificationJson_amended.2.1 proseOnlyReply rfl rfl


/-- C1 (amended): for a certificate whose status is already 'verified', verify
short-circuits: it returns success with status 'verified' without invoking
the Analysis Client, but the returned outcome carries no details — the
previously stored AnalysisResult is not returned. -/
theorem alreadyVerified_short_circuit (w : World) (u : User) (c : Certificate)
    (hu : w.getUser = .ok (some u)) (hc : w.getCertificate = .ok (some c))
    (hv : c.verification_status = "verified") :
    (runVerification w).1 =
      { success := true, status := "verified",
        message := "Certificate is already verified", details := none } ∧
    Event.analysisCall ∉ (runVerification w).2 := by
  unfold runVerification
  rw [hu, hc]
  simp [hv]

/-- Witness for C1's amended theorem at the concrete `wVerified`. -/
theorem alreadyVerified_short_circuit_witness :
    (runVerification wVerified).1 =
      { success := true, status := "verified",
        message := "Certificate is already verified", details := none } ∧
    Event.analysisCall ∉ (runVerification wVerified).2 :=
  alreadyVerified_short_circuit wVerified sampleUser verifiedCertificate rfl rfl rfl

/-- C1 counterexample: in `wVerified` the stored certificate carries details
from the earlier run, yet the short-circuit outcome's details field is
absent, so the claim that the outcome carries the previously stored
AnalysisResult fails. -/
theorem alreadyVerified_details_dropped :
    verifiedCertificate.verification_details =
      some "\x7b\"total_verification\":\"pass\"\x7d" ∧
    (runVerification wVerified).1.success = true ∧
    (runVerification wVerified).1.details = none :=
  ⟨rfl, rfl, rfl⟩


/-- C5: for a certificate that exists for the user and is not yet verified,
if either required document reference is absent (or empty), verify records an
audit-log error, writes exactly one durable log row with step
`document_check`, never invokes the Analysis Client, and returns the
unsuccessful data-completeness outcome with its distinct message. -/
theorem missing_documents_rejected (w : World) (u : User) (c : Certificate)
    (hu : w.getUser = .ok (some u)) (hc : w.getCertificate = .ok (some c))
    (hnv : c.verification_status ≠ "verified")
    (hdoc : truthyStr c.certificate_url = false ∨
            truthyStr c.verification_url_pdf = false)
    (hlog : w.createLog "document_check" = .ok ()) :
    (runVerification w).1 =
      { success := false, status := "rejected",
        message := "Missing required verification documents", details := none } ∧
    Event.audit "missing_verification_documents" "error" ∈ (runVerification w).2 ∧
    ((runVerification w).2.filter isDocumentCheckLog).length = 1 ∧
    Event.analysisCall ∉ (runVerification w).2 := by
  unfold runVerification
  rw [hu, hc]
  have hd : (!truthyStr c.certificate_url ||
             !truthyStr c.verification_url_pdf) = true := by
    rcases hdoc with h | h <;> simp [h]
  simp [hnv, hd, hlog, isDocumentCheckLog]

/-- Witness for C5 at the concrete `wMissingDoc`. -/
theorem missing_documents_rejected_witness :
    (runVerification wMissingDoc).1 =
      { success := false, status := "rejected",
        message := "Missing required verification documents", details := none } ∧
    Event.audit "missing_verification_documents" "error" ∈ (runVerification wMissingDoc).2 ∧
    ((runVerification wMissingDoc).2.filter isDocumentCheckLog).length = 1 ∧
    Event.analysisCall ∉ (runVerification wMissingDoc).2 :=
  missing_documents_rejected wMissingDoc sampleUser
    { baseCertificate with certificate_url := none }
    rfl rfl (by decide) (Or.inl rfl) rfl


/-- C3 (amended): when the status update throws after a successful analysis,
the catch-all handler surfaces the failure as an unsuccessful 'rejected'
outcome whose message wraps the storage error, but the in-memory
AnalysisResult is dropped: the outcome carries no details. -/
theorem storage_failure_surfaced (w : World) (u : User) (c : Certificate)
    (res : MistralVerificationResponse) (e : String)
    (hu : w.getUser = .ok (some u)) (hc : w.getCertificate = .ok (some c))
    (hnv : c.verification_status ≠ "verified")
    (hcu : truthyStr c.certificate_url = true)
    (hpdf : truthyStr c.verification_url_pdf = true)
    (hcg : w.cacheGet = .ok none)
    (hlp : w.createLog "verification_process" = .ok ())
    (han : w.analyze = .ok res)
    (hup : w.updateStatus = .error e) :
    (runVerification w).1 =
      { success := false, status := "rejected",
        message := "Verification process failed: " ++ e, details := none } ∧
    Event.analysisCall ∈ (runVerification w).2 ∧
    Event.statusUpdate
      (if res.total_verification == "pass" && res.verification_url_valid
       then "verified" else "rejected") false ∈ (runVerification w).2 := by
  unfold runVerification
  rw [hu, hc, hcg, hlp, han, hup]
  simp [hnv, hcu, hpdf, catchBlock]

/-- Witness for C3's amended theorem at the concrete `wStorageFail`. -/
theorem storage_failure_surfaced_witness :
    (runVerification wStorageFail).1 =
      { success := false, status := "rejected",
        message := "Verification process failed: " ++
          "Database error: Failed to update certificate verification: boom",
        details := none } ∧
    Event.analysisCall ∈ (runVerification wStorageFail).2 ∧
    Event.statusUpdate
      (if sampleResponse.total_verification == "pass" &&
          sampleResponse.verification_url_valid
       then "verified" else "rejected") false ∈ (runVerification wStorageFail).2 :=
  storage_failure_surfaced wStorageFail sampleUser baseCertificate sampleResponse
    "Database error: Failed to update certificate verification: boom"
    rfl rfl (by decide) rfl rfl rfl rfl rfl rfl

/-- C3 counterexample: in `wStorageFail` the analysis succeeded with
`sampleResponse`, the outcome is unsuccessful as the claim says, yet its
details field is absent rather than carrying the in-memory AnalysisResult. -/
theorem storage_failure_details_dropped :
    wStorageFail.analyze = .ok sampleResponse ∧
    (runVerification wStorageFail).1.success = false ∧
    (runVerification wStorageFail).1.details = none :=
  ⟨rfl, rfl, rfl⟩


/-- C2 (amended): after a successful analysis and status update, a failure of
the durable `verification_completed` log write or of the cache write-back is
caught by the catch-all handler — no exception reaches the caller — but it
does change the returned verification outcome: the run returns the
unsuccessful 'rejected' outcome wrapping the error, without the computed
result, even though the status update already persisted. -/
theorem writeback_failure_changes_outcome (w : World) (u : User) (c : Certificate)
    (res : MistralVerificationResponse) (e : String)
    (hu : w.getUser = .ok (some u)) (hc : w.getCertificate = .ok (some c))
    (hnv : c.verification_status ≠ "verified")
    (hcu : truthyStr c.certificate_url = true)
    (hpdf : truthyStr c.verification_url_pdf = true)
    (hcg : w.cacheGet = .ok none)
    (hlp : w.createLog "verification_process" = .ok ())
    (han : w.analyze = .ok res)
    (hup : w.updateStatus = .ok ())
    (hfail : w.createLog "verification_completed" = .error e ∨
             (w.createLog "verification_completed" = .ok () ∧
              w.cachePut = .error e)) :
    (runVerification w).1 =
      { success := false, status := "rejected",
        message := "Verification process failed: " ++ e, details := none } ∧
    Event.statusUpdate
      (if res.total_verification == "pass" && res.verification_url_valid
       then "verified" else "rejected") true ∈ (runVerification w).2 := by
  unfold runVerification
  rw [hu, hc, hcg, hlp, han, hup]
  rcases hfail with hlc | ⟨hlc, hcp⟩
  · rw [hlc]
    simp [hnv, hcu, hpdf, catchBlock]
  · rw [hlc, hcp]
    simp [hnv, hcu, hpdf, catchBlock]

/-- Witness for C2's amended theorem at the concrete `wCompletedLogFail`. -/
theorem writeback_failure_changes_outcome_witness :
    (runVerification wCompletedLogFail).1 =
      { success := false, status := "rejected",
        message := "Verification process failed: " ++
          "Database error: Failed to create verification log: boom",
        details := none } ∧
    Event.statusUpdate
      (if sampleResponse.total_verification == "pass" &&
          sampleResponse.verification_url_valid
       then "verified" else "rejected") true ∈ (runVerification wCompletedLogFail).2 :=
  writeback_failure_changes_outcome wCompletedLogFail sampleUser baseCertificate
    sampleResponse "Database error: Failed to create verification log: boom"
    rfl rfl (by decide) rfl rfl rfl rfl rfl rfl (Or.inl rfl)

/-- C2 counterexample: with every step succeeding except the durable
completion-log write (`wCompletedLogFail`) or except the cache write-back
(`wCachePutFail`), the returned outcome is unsuccessful with no details —
the failure is not absorbed, contradicting the claim that the outcome stays
the success result. -/
theorem writeback_failure_not_absorbed :
    ((runVerification wCompletedLogFail).1.success = false ∧
     (runVerification wCompletedLogFail).1.details = none) ∧
    ((runVerification wCachePutFail).1.success = false ∧
     (runVerification wCachePutFail).1.details = none) :=
  ⟨⟨rfl, rfl⟩, ⟨rfl, rfl⟩⟩


/-- C9: every unsuccessful outcome of a verification run — user or
certificate not found, missing documents, or any caught error — carries the
literal status 'rejected'; and on the user-not-found path no status write to
the Record Store is even attempted, so the stored certificate may well still
be 'pending'. -/
theorem failure_outcome_always_rejected (w : World) :
    ((runVerification w).1.success = false →
      (runVerification w).1.status = "rejected") ∧
    (w.getUser = .ok none →
      ∀ ns okFlag, Event.statusUpdate ns okFlag ∉ (runVerification w).2) := by
  constructor
  · unfold runVerification
    repeat' split
    all_goals simp_all [catchBlock]
  · intro hgu ns okFlag
    unfold runVerification
    rw [hgu]
    simp

/-- Witness for C9 at the concrete `wUserNotFound`. -/
theorem failure_outcome_always_rejected_witness :
    (runVerification wUserNotFound).1.status = "rejected" ∧
    Event.statusUpdate "verified" true ∉ (runVerification wUserNotFound).2 :=
  ⟨(failure_outcome_always_rejected wUserNotFound).1 rfl,
   (failure_outcome_always_rejected wUserNotFound).2 rfl "verified" true⟩


/-- C8: a `Logger.log` call never lets an exception escape under any
combination of KV failures; if the entry write path fails, the console
fallback fires and the call still returns; the recent-requests index update
keeps the newest id first, stays deduplicated, and is capped at 1000; and
when the entry write succeeded, an index failure neither fails the call nor
triggers the fallback. -/
theorem loggerLog_best_effort (w : LogWorld) (requestId step status : String)
    (recent : List String) (hnd : recent.Nodup) :
    (loggerLog w requestId step status).2 = false ∧
    (w.putLogFails = true →
      LogEffect.consoleFallback ∈ (loggerLog w requestId step status).1) ∧
    (updateRecent requestId recent).head? = some requestId ∧
    (updateRecent requestId recent).length ≤ 1000 ∧
    (updateRecent requestId recent).Nodup ∧
    (w.putLogFails = false → w.putRequestListFails = false →
      LogEffect.kvPutLog true ∈ (loggerLog w requestId step status).1 ∧
      LogEffect.consoleFallback ∉ (loggerLog w requestId step status).1) := by
  refine ⟨?_, ?_, ?_, ?_, ?_, ?_⟩
  · unfold loggerLog
    repeat' split
    all_goals rfl
  · intro hpl
    unfold loggerLog
    simp [hpl]
  · rfl
  · unfold updateRecent
    simp [List.length_take]
  · unfold updateRecent
    refine List.Sublist.nodup (List.take_sublist _ _) ?_
    refine List.nodup_cons.mpr ⟨?_, List.Nodup.filter _ hnd⟩
    simp
  · intro hpl hprl
    unfold loggerLog
    rw [hpl, hprl]
    cases hg : w.recentGet with
    | error e => simp
    | ok ro =>
      cases hpr : w.putRecentFails <;> simp [hpr]

/-- Witness for C8 at a concrete all-success log world. -/
theorem loggerLog_best_effort_witness :
    (loggerLog (LogWorld.mk false false (.ok (some ["a", "b"])) false)
        "r1" "verification_started" "info").2 = false ∧
    (updateRecent "r1" ["a", "b"]).head? = some "r1" ∧
    (updateRecent "r1" ["a", "b"]).Nodup :=
  have h := loggerLog_best_effort
    (LogWorld.mk false false (.ok (some ["a", "b"])) false)
    "r1" "verification_started" "info" ["a", "b"] (by decide)
  ⟨h.1, h.2.2.1, h.2.2.2.2.1⟩

end CertVerify
